import Mathlib

/-!
Shallow embedding of the multi-source paper-search tool layer
(arXiv, Semantic Scholar, CORE, J-STAGE, conference fallback).

Conventions of the embedding:
* Epoch-millisecond times are `Int`; `Date.now()` readings are passed in
  as explicit parameters.
* The outcome of the single `fetch` each search performs is passed in as a
  `FetchResult` value: `ok` carries the already-decoded body (the XML entry
  blocks found by the entry regex, or the decoded JSON object), `httpError`
  models a non-2xx response (`response.ok === false`), `netError` models a
  thrown/rejected `fetch`.
* JavaScript string-falsiness (`x || d` where `x` is `''`, `null` or
  `undefined`) is modelled by `jsOr` on `String` (with `""` standing for a
  missing/empty extraction result) and by `Option` where the source can see
  `undefined`/`null` distinctly.
* A thrown error is an `Except.error` carrying the error message.
* The module-level mutable arrays `collectedArxivUrls`, `collectedUrls`
  and `collectedJstageUrls` are gathered in a `Collectors` record that is
  threaded through every search; the module-level cooldown timestamps are
  threaded as explicit `Int` state.
-/

/-- One element of a URL-collector array: the object literal pushed by the
tools (`{id, title, url, source}`). -/
structure UrlEntry where
  id : String
  title : String
  url : String
  source : String
deriving Repr, DecidableEq

/-- The three module-level collector arrays: `collectedArxivUrls`
(arxiv-tool), `collectedUrls` (semantic-scholar tool) and
`collectedJstageUrls` (jstage-tool).  The CORE and conference tools declare
no collector. -/
structure Collectors where
  arxivUrls : List UrlEntry
  ssUrls : List UrlEntry
  jstageUrls : List UrlEntry
deriving Repr, DecidableEq

/-- Outcome of the one upstream `fetch` a search performs. -/
inductive FetchResult (α : Type) where
  | ok (body : α)
  | httpError (status : Nat) (statusText : String)
  | netError (msg : String)
deriving Repr

/-- JavaScript `a || b` for strings, where the left operand is falsy exactly
when it is the empty string. -/
def jsOr (a b : String) : String := if a = "" then b else a

/-- JavaScript `s || null` (used where the source stores `null` for a falsy
string). -/
def jsOrNull (s : String) : Option String := if s = "" then none else some s

/-- Whether `pat` occurs as a contiguous sublist: JavaScript
`String.prototype.includes`. -/
def hasSub (pat : List Char) : List Char → Bool
  | [] => pat.isEmpty
  | c :: rest => pat.isPrefixOf (c :: rest) || hasSub pat rest

/-- JavaScript `String.prototype.replace` with a string pattern: replaces
only the first occurrence, leaves the string unchanged when `pat` does not
occur. -/
def replFirst (pat repl : List Char) : List Char → List Char
  | [] => []
  | c :: rest =>
    if pat.isPrefixOf (c :: rest) then repl ++ (c :: rest).drop pat.length
    else c :: replFirst pat repl rest

/-- Boolean suffix test (JavaScript `String.prototype.endsWith`). -/
def endsWithL (l pat : List Char) : Bool := pat.isSuffixOf l

/-- Suffix after the first occurrence of `pat` (used by JS regexes of the
form `pat(.+)$`; the guard requires at least one following character, as
`.+` does). -/
def matchAbsTail : List Char → Option (List Char)
  | [] => none
  | c :: rest =>
    if "abs/".data.isPrefixOf (c :: rest) && !((c :: rest).drop 4).isEmpty then
      some ((c :: rest).drop 4)
    else matchAbsTail rest

/-! ## arXiv tool (`arxiv-tool.ts`) -/

/-- Regex-extraction results of one `<entry>...</entry>` block of the Atom
feed, as computed by `parseEntry`'s helpers: `extractText tag` yields `""`
when the tag is absent (the `match ? ... : ''` default), `extractMultiple`
yields the list of matches, and the two link regexes yield the captured
`href` (`none` when no `<link ... title="pdf">` resp.
`<link ... type="text/html">` element matches). -/
structure ArxivEntryXml where
  idText : String
  titleText : String
  summaryText : String
  publishedText : String
  updatedText : String
  nameTexts : List String
  categoryTerms : List String
  pdfHref : Option String
  htmlHref : Option String
deriving Repr, DecidableEq

/-- The `ArxivEntry` interface of the source. -/
structure ArxivEntry where
  id : String
  title : String
  authors : List String
  abstract : String
  categories : List String
  published : String
  updated : String
  link : String
deriving Repr, DecidableEq

/-- `formatDate`: the source computes
`new Date(dateString).toISOString().split('T')[0]` and returns
`dateString` unchanged when parsing throws.  For the UTC ISO-8601
timestamps the arXiv Atom feed carries (`YYYY-MM-DDThh:mm:ssZ`) this is
exactly the text before the `'T'`; we model it as that truncation, with
the empty string passed through as in the source's first guard. -/
def formatDate (dateString : String) : String :=
  if dateString = "" then ""
  else String.mk (dateString.data.takeWhile (fun c => c != 'T'))

/-- `extractLink` of `parseEntry`: the `href` of the link titled "pdf" when
present, else the `href` of the `text/html` link, else `''`. -/
def extractLink (e : ArxivEntryXml) : String :=
  match e.pdfHref with
  | some h => h
  | none => e.htmlHref.getD ""

/-- `parseEntry`: returns `null` (here `none`) when the extracted id or
title is empty, otherwise builds the `ArxivEntry`, deriving the short
arXiv id from the trailing `abs/...` segment of the Atom id (regex
`abs\/(.+)$`, falling back to the full id) and defaulting the link to the
constructed abstract-page URL when both link regexes failed. -/
def parseEntry (e : ArxivEntryXml) : Option ArxivEntry :=
  if e.idText = "" || e.titleText = "" then none
  else
    let arxivId :=
      match matchAbsTail e.idText.data with
      | some tail => String.mk tail
      | none => e.idText
    some
      { id := arxivId
        title := e.titleText
        authors := e.nameTexts
        abstract := e.summaryText
        categories := e.categoryTerms
        published := formatDate e.publishedText
        updated := formatDate e.updatedText
        link := jsOr (extractLink e) ("https://arxiv.org/abs/" ++ arxivId) }

/-- `parseArxivXML`: the entry regex splits the response into entry blocks
(the input list); each block goes through `parseEntry` inside a
`try`/`catch` that ignores `null` results and per-entry failures, so the
result is exactly the successfully parsed entries in order. -/
def parseArxivXML (entryBlocks : List ArxivEntryXml) : List ArxivEntry :=
  entryBlocks.filterMap parseEntry

/-- The reduced paper shape the arXiv tool returns to the agent
(`simplifiedPaperSchema` of `arxiv-tool.ts`). -/
structure SimplifiedArxivPaper where
  title : String
  abstract : String
  published : String
  pdfLink : String
  arxivId : String
deriving Repr, DecidableEq

/-- First step of the PDF-link normalization of `searchArxiv`: rewrite the
first `/abs/` to `/pdf/` when present. -/
def absToPdf (link : List Char) : List Char :=
  if hasSub "/abs/".data link then replFirst "/abs/".data "/pdf/".data link else link

/-- PDF-link normalization of `searchArxiv`: rewrite the first `/abs/` to
`/pdf/` when present, then append `.pdf` unless already there. -/
def toPdfLinkL (link : List Char) : List Char :=
  if endsWithL (absToPdf link) ".pdf".data then absToPdf link
  else absToPdf link ++ ".pdf".data

/-- String wrapper of `toPdfLinkL`. -/
def toPdfLink (link : String) : String := String.mk (toPdfLinkL link.data)

/-- Cooldown constant `ARXIV_COOLDOWN_MS`. -/
def ARXIV_COOLDOWN_MS : Int := 30000

/-- Query parameters `searchArxiv` builds (`URLSearchParams`), in insertion
order. -/
def arxivParams (query : String) (maxResults : Int) (sortBy : String) :
    List (String × String) :=
  [("search_query", query), ("start", "0"), ("max_results", toString maxResults),
   ("sortBy", sortBy), ("sortOrder", "descending")]

/-- The cooldown error message thrown by `searchArxiv`
(`Math.ceil(waitTime / 1000)` on a positive wait is `(waitTime + 999) / 1000`). -/
def arxivCooldownMessage (waitTime : Int) : String :=
  "arXiv API cooldown active. Please wait " ++ toString ((waitTime + 999) / 1000) ++
    " seconds before next search."

/-- The collector entry `searchArxiv` pushes for one parsed paper. -/
def arxivUrlEntry (p : ArxivEntry) : UrlEntry :=
  { id := p.id, title := p.title, url := p.link, source := "arXiv" }

/-- The per-paper reduction `searchArxiv` maps over the parsed papers. -/
def simplifyArxivPaper (p : ArxivEntry) : SimplifiedArxivPaper :=
  { title := p.title, abstract := p.abstract, published := p.published,
    pdfLink := toPdfLink p.link, arxivId := p.id }

/-- Result of one `searchArxiv` invocation: the returned value or thrown
message, the new module state, and whether the upstream request was
issued. -/
structure ArxivResult where
  outcome : Except String (List SimplifiedArxivPaper)
  lastArxivCall : Int
  cols : Collectors
  httpIssued : Bool
deriving Repr

/-- `searchArxiv`: fail fast with the cooldown error (before any request)
when called within `ARXIV_COOLDOWN_MS` of the recorded last call; otherwise
issue the request; on a non-2xx response or network failure rethrow the
wrapped error leaving all state unchanged; on success record
`lastArxivCall = now`, push one collector entry per parsed paper, and
return the simplified papers. -/
def searchArxiv (now : Int) (fetchRes : FetchResult (List ArxivEntryXml))
    (lastArxivCall : Int) (cols : Collectors) : ArxivResult :=
  let timeSinceLastCall := now - lastArxivCall
  if timeSinceLastCall < ARXIV_COOLDOWN_MS then
    { outcome := .error (arxivCooldownMessage (ARXIV_COOLDOWN_MS - timeSinceLastCall))
      lastArxivCall := lastArxivCall, cols := cols, httpIssued := false }
  else
    match fetchRes with
    | .httpError status statusText =>
      { outcome := .error ("Failed to search arXiv: arXiv API request failed: " ++
          toString status ++ " " ++ statusText)
        lastArxivCall := lastArxivCall, cols := cols, httpIssued := true }
    | .netError msg =>
      { outcome := .error ("Failed to search arXiv: " ++ msg)
        lastArxivCall := lastArxivCall, cols := cols, httpIssued := true }
    | .ok entryBlocks =>
      let papers := parseArxivXML entryBlocks
      { outcome := .ok (papers.map simplifyArxivPaper)
        lastArxivCall := now
        cols := { cols with arxivUrls := cols.arxivUrls ++ papers.map arxivUrlEntry }
        httpIssued := true }

/-! ## Semantic Scholar tool (second half of `arxiv-tool.ts`) -/

/-- One raw author object of the Semantic Scholar JSON payload. -/
structure SSRawAuthor where
  authorId : Option String
  name : Option String
deriving Repr, DecidableEq

/-- One raw record of `data.data` in the Semantic Scholar JSON response;
`none` models an absent / `null` JSON field. -/
structure SSRawPaper where
  paperId : Option String
  title : Option String
  abstract : Option String
  authors : Option (List SSRawAuthor)
  year : Option Int
  citationCount : Option Int
  venue : Option String
  publicationTypes : Option (List String)
  url : Option String
  fieldsOfStudy : Option (List String)
deriving Repr, DecidableEq

/-- The decoded Semantic Scholar response body: `data.data` and
`data.total`. -/
structure SSData where
  data : Option (List SSRawPaper)
  total : Option Int
deriving Repr, DecidableEq

/-- JavaScript `o || d` where `o` is an optional string field: falsy when
absent, `null` or `""`. -/
def jsOrOpt (o : Option String) (d : String) : String :=
  match o with
  | some s => if s = "" then d else s
  | none => d

/-- JavaScript `o || d` on an optional number field (`0` is falsy). -/
def jsOrOptInt (o : Option Int) (d : Int) : Int :=
  match o with
  | some n => if n = 0 then d else n
  | none => d

/-- JavaScript template interpolation of a possibly-undefined string
(`undefined` renders as the literal text "undefined"). -/
def jsInterp (o : Option String) : String := o.getD "undefined"

/-- The reduced paper shape the Semantic Scholar tool returns to the agent
(`simplifiedPaperSchema` of the Semantic Scholar tool). -/
structure SSPaper where
  title : String
  abstract : String
  year : Option Int
  citationCount : Int
deriving Repr, DecidableEq

/-- Cooldown constant `SEMANTIC_SCHOLAR_COOLDOWN_MS`. -/
def SEMANTIC_SCHOLAR_COOLDOWN_MS : Int := 1000

/-- Query parameters `searchSemanticScholar` builds; the sent `limit` is
`Math.min(maxResults, 50)`. -/
def ssParams (query : String) (maxResults : Int) : List (String × String) :=
  [("query", query), ("limit", toString (min maxResults 50)),
   ("fields", "paperId,title,abstract,authors,year,citationCount,venue,publicationTypes,url,openAccessPdf,fieldsOfStudy")]

/-- The `paperData.url` computed for one raw record:
`paper.url || 'https://www.semanticscholar.org/paper/' + paper.paperId`
(the template renders an absent `paperId` as "undefined"). -/
def ssPaperUrl (raw : SSRawPaper) : String :=
  jsOrOpt raw.url ("https://www.semanticscholar.org/paper/" ++ jsInterp raw.paperId)

/-- The collector entry pushed for one raw record while it is normalized. -/
def ssUrlEntry (raw : SSRawPaper) : UrlEntry :=
  { id := jsOrOpt raw.paperId ""
    title := jsOrOpt raw.title ""
    url := ssPaperUrl raw
    source := "Semantic Scholar" }

/-- The simplified record returned to the agent for one raw record. -/
def ssSimplify (raw : SSRawPaper) : SSPaper :=
  { title := jsOrOpt raw.title ""
    abstract := jsOrOpt raw.abstract ""
    year := raw.year
    citationCount := jsOrOptInt raw.citationCount 0 }

/-- Result of one `searchSemanticScholar` invocation. `waitedMillis` is the
duration of the timed suspension performed before the request (`0` when no
wait was needed); the request is always issued after it. -/
structure SSResult where
  outcome : Except String (List SSPaper)
  lastSemanticScholarCall : Int
  cols : Collectors
  waitedMillis : Int
  httpIssued : Bool
deriving Repr

/-- `searchSemanticScholar`: when called within
`SEMANTIC_SCHOLAR_COOLDOWN_MS` of the recorded last call, suspend for the
remaining cooldown (never reject) and then proceed; throw the wrapped
error on a non-2xx response (with a dedicated message for 429) or network
failure, leaving all state unchanged; on success record
`lastSemanticScholarCall` (a fresh `Date.now()`, the `nowAfter` argument),
push one collector entry per record of `data.data` while mapping it to the
simplified shape. -/
def searchSemanticScholar (now nowAfter : Int)
    (fetchRes : FetchResult SSData) (lastSemanticScholarCall : Int)
    (cols : Collectors) : SSResult :=
  let timeSinceLastCall := now - lastSemanticScholarCall
  let waited :=
    if timeSinceLastCall < SEMANTIC_SCHOLAR_COOLDOWN_MS then
      SEMANTIC_SCHOLAR_COOLDOWN_MS - timeSinceLastCall
    else 0
  match fetchRes with
  | .httpError status statusText =>
    let msg :=
      if status = 429 then
        "Semantic Scholar API rate limit exceeded. Please try again later."
      else
        "Semantic Scholar API request failed: " ++ toString status ++ " " ++ statusText
    { outcome := .error ("Failed to search Semantic Scholar: " ++ msg)
      lastSemanticScholarCall := lastSemanticScholarCall, cols := cols
      waitedMillis := waited, httpIssued := true }
  | .netError msg =>
    { outcome := .error ("Failed to search Semantic Scholar: " ++ msg)
      lastSemanticScholarCall := lastSemanticScholarCall, cols := cols
      waitedMillis := waited, httpIssued := true }
  | .ok data =>
    let raws := data.data.getD []
    { outcome := .ok (raws.map ssSimplify)
      lastSemanticScholarCall := nowAfter
      cols := { cols with ssUrls := cols.ssUrls ++ raws.map ssUrlEntry }
      waitedMillis := waited, httpIssued := true }

/-! ## J-STAGE tool (`jstage-tool.ts`) -/

/-- Regex-extraction results of one `<entry>` or `<item>` block of the
J-STAGE XML: each field holds the `extractXmlTag` result for that tag
(`""` when the tag is absent, CDATA already unwrapped); the author and
keyword lists hold the non-empty tag contents in document order. -/
structure JstageItemXml where
  title : String
  description : String
  prismPublicationDate : String
  prismDoi : String
  prismPublicationName : String
  prismVolume : String
  prismNumber : String
  link : String
  guid : String
  prismUrl : String
  prismIdentifier : String
  identifier : String
  dcCreators : List String
  prismCreatorNames : List String
  prismKeywords : List String
deriving Repr, DecidableEq

/-- The decoded J-STAGE XML response: the `<entry>` blocks, the `<item>`
blocks, and the `<opensearch:totalResults>` count when present. -/
structure JstageXml where
  entryBlocks : List JstageItemXml
  itemBlocks : List JstageItemXml
  totalResults : Option Nat
deriving Repr, DecidableEq

/-- The `JstagePaper` interface of the source. -/
structure JstagePaper where
  title : String
  authors : List String
  abstract : String
  doi : String
  journalTitle : String
  volume : String
  issueNumber : String
  publicationDate : String
  url : String
  keywords : List String
deriving Repr, DecidableEq

/-- The reduced paper shape the J-STAGE tool returns to the agent. -/
structure SimplifiedJstagePaper where
  title : String
  authors : List String
  publicationDate : String
  doi : Option String
  journalTitle : Option String
deriving Repr, DecidableEq

/-- `extractUrl`: first of `link`, `guid`, `prism:url`; then a DOI-derived
URL; then `prism:identifier || identifier` when it starts with "http";
else `""`. -/
def extractUrl (x : JstageItemXml) : String :=
  if x.link ≠ "" then x.link
  else if x.guid ≠ "" then x.guid
  else if x.prismUrl ≠ "" then x.prismUrl
  else if x.prismDoi ≠ "" then "https://doi.org/" ++ x.prismDoi
  else
    let identifier := jsOr x.prismIdentifier x.identifier
    if identifier ≠ "" && "http".data.isPrefixOf identifier.data then identifier
    else ""

/-- `extractAuthors`: the `dc:creator` contents followed by the
`prism:creatorName` contents, skipping empty strings and duplicates. -/
def extractAuthors (x : JstageItemXml) : List String :=
  (x.dcCreators ++ x.prismCreatorNames).foldl
    (fun acc a => if a ≠ "" && !acc.contains a then acc ++ [a] else acc) []

/-- `extractKeywords`: the `prism:keyword` contents, skipping empty strings
and duplicates. -/
def extractKeywords (x : JstageItemXml) : List String :=
  x.prismKeywords.foldl
    (fun acc k => if k ≠ "" && !acc.contains k then acc ++ [k] else acc) []

/-- The per-block body of the `parseJstageXML` loop: every block yields a
paper; a missing title becomes the literal `'No Title'`, every other
missing field becomes `''`. -/
def parseJstageItem (x : JstageItemXml) : JstagePaper :=
  { title := jsOr x.title "No Title"
    authors := extractAuthors x
    abstract := x.description
    doi := x.prismDoi
    journalTitle := x.prismPublicationName
    volume := x.prismVolume
    issueNumber := x.prismNumber
    publicationDate := x.prismPublicationDate
    url := extractUrl x
    keywords := extractKeywords x }

/-- The blocks `parseJstageXML` iterates over: the `<entry>` matches, or
the `<item>` matches when no `<entry>` matched. -/
def jstageBlocks (x : JstageXml) : List JstageItemXml :=
  if x.entryBlocks.isEmpty then x.itemBlocks else x.entryBlocks

/-- `parseJstageXML`: parse every selected block (the per-block
`try`/`catch` never skips, since the block body is total). -/
def parseJstageXML (x : JstageXml) : List JstagePaper :=
  (jstageBlocks x).map parseJstageItem

/-- `extractTotalHits`: the `<opensearch:totalResults>` number, `0` when
the tag is absent. -/
def extractTotalHits (x : JstageXml) : Nat := x.totalResults.getD 0

/-- Cooldown constant `JSTAGE_COOLDOWN_MS`. -/
def JSTAGE_COOLDOWN_MS : Int := 1000

/-- Query parameters `searchJstage` builds: the base parameters (the sent
`count` is `Math.min(maxResults, 100)`) followed by the optional
parameters in append order. -/
def jstageParams (query : String) (maxResults : Int)
    (material pubyearfrom pubyearto : Option String) : List (String × String) :=
  [("service", "3"), ("text", query), ("start", "1"),
   ("count", toString (min maxResults 100))] ++
  (match material with | some m => [("material", m)] | none => []) ++
  (match pubyearfrom with | some y => [("pubyearfrom", y)] | none => []) ++
  (match pubyearto with | some y => [("pubyearto", y)] | none => [])

/-- Percent-encoding of one UTF-8 byte for `encodeURIComponent`. -/
def percentEncodeByte (b : UInt8) : List Char :=
  let hex : Nat → Char := fun n =>
    if n < 10 then Char.ofNat (48 + n) else Char.ofNat (55 + n)
  ['%', hex (b.toNat / 16), hex (b.toNat % 16)]

/-- Whether a byte is left unescaped by `encodeURIComponent`
(ASCII letters, digits, and `- _ . ! ~ * ' ( )`). -/
def uriUnescaped (b : UInt8) : Bool :=
  (65 ≤ b.toNat && b.toNat ≤ 90) || (97 ≤ b.toNat && b.toNat ≤ 122) ||
  (48 ≤ b.toNat && b.toNat ≤ 57) ||
  [45, 95, 46, 33, 126, 42, 39, 40, 41].contains b.toNat

/-- JavaScript `encodeURIComponent` over the UTF-8 bytes of the string. -/
def encodeURIComponent (s : String) : String :=
  String.mk (s.toUTF8.toList.foldr
    (fun b acc => (if uriUnescaped b then [Char.ofNat b.toNat] else percentEncodeByte b) ++ acc) [])

/-- The fallback search URL used for a collected J-STAGE paper without a
URL of its own. -/
def jstageSearchUrl (title : String) : String :=
  "https://www.jstage.jst.go.jp/search/global/_search/-char/ja?item=" ++
    encodeURIComponent title

/-- The collector entry pushed for one parsed J-STAGE paper; `freshId` is
the `'jstage-' + Date.now() + '-' + Math.random()` fallback generated when
the paper has no DOI. -/
def jstageUrlEntry (freshId : String) (p : JstagePaper) : UrlEntry :=
  { id := jsOr p.doi freshId
    title := p.title
    url := jsOr p.url (jstageSearchUrl p.title)
    source := "J-STAGE" }

/-- The per-paper reduction `searchJstage` maps over the parsed papers
(authors truncated to the first 3, empty DOI/journal mapped to `null`). -/
def simplifyJstagePaper (p : JstagePaper) : SimplifiedJstagePaper :=
  { title := p.title
    authors := p.authors.take 3
    publicationDate := p.publicationDate
    doi := jsOrNull p.doi
    journalTitle := jsOrNull p.journalTitle }

/-- The value of a successful `searchJstage`. -/
structure JstageResponse where
  papers : List SimplifiedJstagePaper
  totalResults : Nat
deriving Repr, DecidableEq

/-- Result of one `searchJstage` invocation; `waitedMillis` as in
`SSResult`. -/
structure JstageResult where
  outcome : Except String JstageResponse
  lastJstageCall : Int
  cols : Collectors
  waitedMillis : Int
  httpIssued : Bool
deriving Repr

/-- `searchJstage`: when called within `JSTAGE_COOLDOWN_MS` of the
recorded last call, suspend for the remaining cooldown (never reject) and
then proceed; throw the wrapped error on a non-2xx response or network
failure, leaving all state unchanged; on success record `lastJstageCall`
(a fresh `Date.now()`, the `nowAfter` argument), push one collector entry
per parsed paper (`freshIds i` models the random fallback id generated for
the i-th paper), and return the simplified papers with the total-hit
count. -/
def searchJstage (now nowAfter : Int) (freshIds : Nat → String)
    (fetchRes : FetchResult JstageXml) (lastJstageCall : Int)
    (cols : Collectors) : JstageResult :=
  let timeSinceLastCall := now - lastJstageCall
  let waited :=
    if timeSinceLastCall < JSTAGE_COOLDOWN_MS then
      JSTAGE_COOLDOWN_MS - timeSinceLastCall
    else 0
  match fetchRes with
  | .httpError status statusText =>
    { outcome := .error ("Failed to search J-STAGE: J-STAGE API request failed: " ++
        toString status ++ " " ++ statusText)
      lastJstageCall := lastJstageCall, cols := cols
      waitedMillis := waited, httpIssued := true }
  | .netError msg =>
    { outcome := .error ("Failed to search J-STAGE: " ++ msg)
      lastJstageCall := lastJstageCall, cols := cols
      waitedMillis := waited, httpIssued := true }
  | .ok xml =>
    let papers := parseJstageXML xml
    { outcome := .ok
        { papers := papers.map simplifyJstagePaper
          totalResults := extractTotalHits xml }
      lastJstageCall := nowAfter
      cols := { cols with jstageUrls := cols.jstageUrls ++
          (papers.enum.map (fun ip => jstageUrlEntry (freshIds ip.1) ip.2)) }
      waitedMillis := waited, httpIssued := true }

/-! ## CORE tool (second half of `web-search-tool.ts`) -/

/-- One raw author value of the CORE JSON payload: the source maps it with
`author.name || author`, so it is either an object with an optional `name`
(with `raw` standing for the string the fallback would produce from the
value itself) or a plain string. -/
structure CoreRawAuthor where
  name : Option String
  raw : String
deriving Repr, DecidableEq

/-- One raw record of `data.results` in the CORE JSON response. -/
structure CoreRawPaper where
  id : Option String
  title : Option String
  authors : Option (List CoreRawAuthor)
  abstract : Option String
  year : Option Int
  language : Option String
  repositoryName : Option String
  doi : Option String
  downloadUrl : Option String
  subjects : Option (List String)
  type : Option String
deriving Repr, DecidableEq

/-- The decoded CORE response body: `data.results` and `data.totalHits`. -/
structure CoreData where
  results : Option (List CoreRawPaper)
  totalHits : Option Int
deriving Repr, DecidableEq

/-- The intermediate `ProcessedCorePaper` record of the source. -/
structure ProcessedCorePaper where
  coreId : String
  title : String
  authors : List String
  abstract : String
  year : Int
  language : String
  repository : String
  doi : Option String
  downloadUrl : Option String
  subjects : List String
  documentType : String
deriving Repr, DecidableEq

/-- The paper shape the CORE tool returns (`corePaperSchema`). -/
structure CorePaper where
  coreId : String
  title : String
  authors : List String
  abstract : Option String
  year : Int
  repository : String
  doi : Option String
deriving Repr, DecidableEq

/-- The value the CORE tool's `execute` returns. -/
structure CoreResponse where
  papers : List CorePaper
  totalResults : Int
deriving Repr, DecidableEq

/-- `author.name || author` for one raw author value. -/
def coreAuthorName (a : CoreRawAuthor) : String :=
  match a.name with
  | some n => if n = "" then a.raw else n
  | none => a.raw

/-- The `ProcessedCorePaper` built from one raw record (`currentYear`
models `new Date().getFullYear()`, the default for a falsy `year`). -/
def processCorePaper (currentYear : Int) (r : CoreRawPaper) : ProcessedCorePaper :=
  { coreId := jsOrOpt r.id ""
    title := jsOrOpt r.title ""
    authors := (r.authors.getD []).map coreAuthorName
    abstract := jsOrOpt r.abstract ""
    year := jsOrOptInt r.year currentYear
    language := jsOrOpt r.language "en"
    repository := jsOrOpt r.repositoryName "Unknown"
    doi := r.doi.bind jsOrNull
    downloadUrl := r.downloadUrl.bind jsOrNull
    subjects := r.subjects.getD []
    documentType := jsOrOpt r.type "article" }

/-- The output-schema conversion applied to one processed paper (authors
truncated to the first 3, empty abstract mapped to `undefined`). -/
def coreOutputPaper (p : ProcessedCorePaper) : CorePaper :=
  { coreId := p.coreId
    title := p.title
    authors := p.authors.take 3
    abstract := jsOrNull p.abstract
    year := p.year
    repository := p.repository
    doi := p.doi }

/-- Query parameters the CORE tool builds: the base parameters (the sent
`limit` is the raw `maxResults`) followed by the optional filters in
append order. -/
def coreParams (query : String) (maxResults : Int)
    (yearFrom yearTo : Option Int) (languageFilter : Option (List String))
    (documentType : String) : List (String × String) :=
  [("q", query), ("limit", toString maxResults)] ++
  (match yearFrom with | some y => [("year_from", toString y)] | none => []) ++
  (match yearTo with | some y => [("year_to", toString y)] | none => []) ++
  (match languageFilter with
   | some ls => if ls.isEmpty then [] else [("language", String.intercalate "," ls)]
   | none => []) ++
  (if documentType ≠ "all" then [("type", documentType)] else [])

/-- Result of one CORE `execute` invocation: the returned value and the
collector state (which the CORE tool never touches). -/
structure CoreResult where
  response : CoreResponse
  cols : Collectors
deriving Repr, DecidableEq

/-- The `execute` of `coreSearchTool`: on success, map every record of
`data.results` to the output shape and return `totalHits || papers.length`
as the total; any error (non-2xx response or network failure) is caught
and converted to the degraded success value with no papers and total 0.
No collector is read or written on any path. -/
def coreSearchExecute (currentYear : Int) (fetchRes : FetchResult CoreData)
    (cols : Collectors) : CoreResult :=
  match fetchRes with
  | .httpError _ _ => { response := { papers := [], totalResults := 0 }, cols := cols }
  | .netError _ => { response := { papers := [], totalResults := 0 }, cols := cols }
  | .ok data =>
    let papers := (data.results.getD []).map (processCorePaper currentYear)
    { response :=
        { papers := papers.map coreOutputPaper
          totalResults := jsOrOptInt data.totalHits papers.length }
      cols := cols }

/-! ## Conference-fallback tool (first half of `web-search-tool.ts`) -/

/-- One grounding chunk of the generative response: `chunk.web?.uri`
(`none` when the chunk has no web URI). -/
abbrev GroundingChunk := Option String

/-- The generative-search response inside `searchTopConferences`, or the
error it threw: `err` covers both a missing API key
(`getGenAIClient` throwing) and a failed `generateContent` call. -/
inductive GenResult where
  | ok (text : Option String) (chunks : List GroundingChunk)
  | err (msg : String)
deriving Repr, DecidableEq

/-- One structured paper extracted from the markdown report. -/
structure ConfPaper where
  title : String
  authors : String
  conference : String
  year : String
  abstract : String
  url : String
deriving Repr, DecidableEq

/-- The value `searchTopConferences` resolves with. -/
structure ConfSearchValue where
  content : String
  citations : List String
  papers : List ConfPaper
deriving Repr, DecidableEq

/-- Whether a character is matched by the JS regex class `\s` (ASCII
whitespace; the model ignores the exotic Unicode members). -/
def isJsWs (c : Char) : Bool := c.isWhitespace

/-- Characters excluded by the JS regex `.` (dot). -/
def notNl (c : Char) : Bool := c != '\n' && c != '\r'

/-- When the text starts with a section heading `#### <digits>.`, the
remainder after the dot. -/
def matchConfHead (l : List Char) : Option (List Char) :=
  if "#### ".data.isPrefixOf l then
    let r := l.drop 5
    let ds := r.takeWhile Char.isDigit
    if ds.isEmpty then none
    else match r.drop ds.length with
      | '.' :: rest => some rest
      | _ => none
  else none

/-- The lazily captured body of one section: everything up to (excluding)
the next `#### <digits>.` heading or `### 🎯` stop marker. -/
def takeConfBody : List Char → List Char
  | [] => []
  | c :: rest =>
    if (matchConfHead (c :: rest)).isSome || "### 🎯".data.isPrefixOf (c :: rest) then []
    else c :: takeConfBody rest

/-- All section bodies of the markdown report, one per occurrence of a
`#### <digits>.` heading, in order (the captured bodies of the global
regex; a body never contains a heading, so scanning every position finds
exactly the regex's matches). -/
def confSectionBodies : List Char → List (List Char)
  | [] => []
  | c :: rest =>
    match matchConfHead (c :: rest) with
    | some afterHead => takeConfBody (afterHead.dropWhile isJsWs) :: confSectionBodies rest
    | none => confSectionBodies rest

/-- The title capture of `/#### \d+\.\s*(.+)/` applied to one matched
section: the first line of the body holding a non-whitespace character
(`none` when the body is all whitespace — the section is then skipped). -/
def firstContentLine (body : List Char) : Option (List Char) :=
  let t := body.dropWhile isJsWs
  if t.isEmpty then none else some (t.takeWhile notNl)

/-- The capture of `/marker\s*(.+)/`: after an occurrence of `marker`,
skip whitespace and take the rest of the line; when only whitespace
follows an occurrence, the regex engine moves on to the next
occurrence. -/
def fieldAfter (marker : List Char) : List Char → Option (List Char)
  | [] => none
  | c :: rest =>
    if marker.isPrefixOf (c :: rest) then
      let t := ((c :: rest).drop marker.length).dropWhile isJsWs
      if t.isEmpty then fieldAfter marker rest else some (t.takeWhile notNl)
    else fieldAfter marker rest

/-- The first run of four consecutive digits (`/\d{4}/`). -/
def firstFourDigits : List Char → Option (List Char)
  | [] => none
  | c :: rest =>
    let l := c :: rest
    if 4 ≤ l.length && (l.take 4).all Char.isDigit then some (l.take 4)
    else firstFourDigits rest

/-- Trimmed string of an optional capture, `''` when absent
(`m?.[1]?.trim() || ''`; a capture trimming to `''` is falsy and also
yields `''`). -/
def optTrim (o : Option (List Char)) : String :=
  match o with
  | some l => (String.mk l).trim
  | none => ""

/-- The structured papers extracted from the markdown report: the first 10
sections, keeping those with a title line. -/
def extractConfPapers (text : String) : List ConfPaper :=
  ((confSectionBodies text.data).take 10).filterMap fun body =>
    match firstContentLine body with
    | none => none
    | some titleCapture =>
      let conferenceCapture := fieldAfter "**カンファレンス**:".data body
      some
        { title := (String.mk titleCapture).trim
          authors := optTrim (fieldAfter "**著者**:".data body)
          conference := optTrim conferenceCapture
          year :=
            match conferenceCapture with
            | some cstr =>
              match firstFourDigits cstr with
              | some ds => String.mk ds
              | none => ""
            | none => ""
          abstract := optTrim (fieldAfter "**アブストラクト**:".data body)
          url := optTrim (fieldAfter "**URL**:".data body) }

/-- The citation URLs collected from the grounding chunks (pushed only for
chunks with a truthy `web.uri`). -/
def confCitations (chunks : List GroundingChunk) : List String :=
  chunks.foldl
    (fun acc o =>
      match o with
      | some u => if u ≠ "" then acc ++ [u] else acc
      | none => acc) []

/-- First-occurrence deduplication (`Array.from(new Set(...))`). -/
def dedupKeepOrder (l : List String) : List String :=
  l.foldl (fun acc u => if acc.contains u then acc else acc ++ [u]) []

/-- The reference-list block appended to the report when citations were
found. -/
def citationBlock (citations : List String) : String :=
  "\n\n**🔗 参考カンファレンスサイト:**\n" ++
    String.intercalate "\n"
      ((dedupKeepOrder citations).enum.map
        (fun is => "[" ++ toString (is.1 + 1) ++ "] " ++ is.2))

/-- `searchTopConferences`: on a successful generative call, return the
report text (with the citation block appended when any citation was
collected), the citations, and the extracted papers; every error thrown
inside — missing API key or a failed generative call — is caught and
converted to an apology report with no citations and no papers, so the
function always resolves. -/
def searchTopConferences (genRes : GenResult) : ConfSearchValue :=
  match genRes with
  | .err msg =>
    { content := "申し訳ありません。トップカンファレンス検索中にエラーが発生しました: " ++ msg
      citations := []
      papers := [] }
  | .ok text chunks =>
    let t := text.getD ""
    let citations := confCitations chunks
    let content := if citations.length > 0 then t ++ citationBlock citations else t
    { content := content, citations := citations, papers := extractConfPapers t }

/-- The value the conference tool's `execute` returns
(`outputSchema` of `googleGroundingSearchTool`). -/
structure ConfExecValue where
  searchId : Int
  query : String
  content : String
  citations : List String
  papers : List ConfPaper
  success : Bool
  error : Option String
deriving Repr, DecidableEq

/-- The `execute` of `googleGroundingSearchTool`: call
`searchTopConferences` and wrap its value with `success: true`; the
`catch` branch (returning `success: false` with an `error` field) could
only run if `searchTopConferences` threw, which it never does. -/
def googleGroundingSearchExecute (query : String) (searchId : Int)
    (genRes : GenResult) : ConfExecValue :=
  let r := searchTopConferences genRes
  { searchId := searchId, query := query, content := r.content
    citations := r.citations, papers := r.papers, success := true, error := none }

/-! ## Concrete fixtures used by witnesses and counterexamples -/

/-- Empty collector state. -/
def emptyCols : Collectors := { arxivUrls := [], ssUrls := [], jstageUrls := [] }

/-- A well-formed arXiv Atom entry whose only link is the abstract page. -/
def goodArxivEntry : ArxivEntryXml :=
  { idText := "http://arxiv.org/abs/2301.12345"
    titleText := "Sample Paper"
    summaryText := "An abstract"
    publishedText := "2023-01-15T12:00:00Z"
    updatedText := "2023-01-16T09:00:00Z"
    nameTexts := ["Alice", "Bob"]
    categoryTerms := ["cs.LG"]
    pdfHref := none
    htmlHref := some "https://arxiv.org/abs/2301.12345" }

/-- An arXiv Atom entry whose `<title>` tag is missing (extracted as ""). -/
def badArxivEntry : ArxivEntryXml :=
  { idText := "http://arxiv.org/abs/9999.00001"
    titleText := ""
    summaryText := "No title here"
    publishedText := "2023-02-01T00:00:00Z"
    updatedText := ""
    nameTexts := []
    categoryTerms := []
    pdfHref := none
    htmlHref := none }

/-- A well-formed J-STAGE `<item>` block. -/
def jstageItemGood : JstageItemXml :=
  { title := "Good Paper", description := "A study", prismPublicationDate := "2020-01-01"
    prismDoi := "10.1000/good", prismPublicationName := "Journal", prismVolume := "1"
    prismNumber := "2", link := "https://example.org/good", guid := "", prismUrl := ""
    prismIdentifier := "", identifier := "", dcCreators := ["Tanaka"]
    prismCreatorNames := [], prismKeywords := [] }

/-- A J-STAGE `<item>` block whose `<title>` tag is missing. -/
def jstageItemNoTitle : JstageItemXml :=
  { title := "", description := "Untitled study", prismPublicationDate := "2021-05-05"
    prismDoi := "10.1000/untitled", prismPublicationName := "", prismVolume := ""
    prismNumber := "", link := "", guid := "", prismUrl := ""
    prismIdentifier := "", identifier := "", dcCreators := []
    prismCreatorNames := [], prismKeywords := [] }

/-- A Semantic Scholar record whose `title` field is absent. -/
def ssRawNoTitle : SSRawPaper :=
  { paperId := some "ss-1", title := none, abstract := some "Some abstract"
    authors := some [], year := some 2020, citationCount := some 5, venue := none
    publicationTypes := none, url := none, fieldsOfStudy := none }

/-- A well-formed CORE record. -/
def coreRawGood : CoreRawPaper :=
  { id := some "core-1", title := some "Core Paper"
    authors := some [{ name := some "Alice", raw := "Alice" }]
    abstract := some "abs", year := some 2021, language := some "en"
    repositoryName := some "Repo", doi := some "10.1/x", downloadUrl := none
    subjects := some [], type := some "article" }

/-! ## Helper lemmas -/

/-- Appending the pattern makes it a suffix. -/
theorem endsWithL_append (s pat : List Char) : endsWithL (s ++ pat) pat = true := by
  unfold endsWithL
  rw [List.isSuffixOf, List.reverse_append, List.isPrefixOf_iff_prefix]
  exact List.prefix_append _ _

/-- The normalized arXiv link always ends in `.pdf`. -/
theorem toPdfLinkL_ends (link : List Char) :
    endsWithL (toPdfLinkL link) ".pdf".data = true := by
  unfold toPdfLinkL
  by_cases h : endsWithL (absToPdf link) ".pdf".data = true
  · simp [h]
  · simp only [Bool.not_eq_true] at h
    simp only [h, Bool.false_eq_true, if_false]
    exact endsWithL_append _ _

/-- The normalized arXiv link is never the empty string. -/
theorem toPdfLinkL_ne_nil (link : List Char) : toPdfLinkL link ≠ [] := by
  intro hnil
  have h := toPdfLinkL_ends link
  rw [hnil] at h
  exact absurd h (by decide)

/-! ## Claims -/

/-- C8: the arXiv normalizer rewrites an abstract-page link into a PDF
link by replacing `/abs/` with `/pdf/` and appending `.pdf` when absent:
the link `https://arxiv.org/abs/2301.12345` normalizes to
`https://arxiv.org/pdf/2301.12345.pdf`, both in isolation and through
`searchArxiv` on an entry carrying that abstract-page link. -/
theorem claim_C8_abs_link_normalization :
    toPdfLink "https://arxiv.org/abs/2301.12345" = "https://arxiv.org/pdf/2301.12345.pdf" ∧
    (searchArxiv 30000 (FetchResult.ok [goodArxivEntry]) 0 emptyCols).outcome =
      Except.ok [{ title := "Sample Paper", abstract := "An abstract",
                   published := "2023-01-15",
                   pdfLink := "https://arxiv.org/pdf/2301.12345.pdf",
                   arxivId := "2301.12345" }] :=
  ⟨rfl, rfl⟩

/-- A successful `searchArxiv` outcome comes from an `ok` fetch, with the
papers being the simplified parsed entries. -/
theorem searchArxiv_outcome_ok (now lastArxivCall : Int)
    (fetchRes : FetchResult (List ArxivEntryXml)) (cols : Collectors)
    (papers : List SimplifiedArxivPaper)
    (h : (searchArxiv now fetchRes lastArxivCall cols).outcome = Except.ok papers) :
    ∃ blocks, fetchRes = FetchResult.ok blocks ∧
      papers = (parseArxivXML blocks).map simplifyArxivPaper := by
  by_cases hc : now - lastArxivCall < (30000 : Int)
  · simp [searchArxiv, ARXIV_COOLDOWN_MS, hc] at h
  · cases fetchRes with
    | httpError s st => simp [searchArxiv, ARXIV_COOLDOWN_MS, hc] at h
    | netError m => simp [searchArxiv, ARXIV_COOLDOWN_MS, hc] at h
    | ok blocks =>
      simp [searchArxiv, ARXIV_COOLDOWN_MS, hc] at h
      exact ⟨blocks, rfl, h.symm⟩

/-- C9: every paper a successful `searchArxiv` returns has a non-empty
`pdfLink` ending in `.pdf`. -/
theorem claim_C9_pdf_link_invariant (now lastArxivCall : Int)
    (fetchRes : FetchResult (List ArxivEntryXml)) (cols : Collectors)
    (papers : List SimplifiedArxivPaper)
    (h : (searchArxiv now fetchRes lastArxivCall cols).outcome = Except.ok papers) :
    ∀ p ∈ papers, endsWithL p.pdfLink.data ".pdf".data = true ∧ p.pdfLink ≠ "" := by
  obtain ⟨blocks, rfl, rfl⟩ :=
    searchArxiv_outcome_ok now lastArxivCall fetchRes cols papers h
  intro p hp
  obtain ⟨q, hq, rfl⟩ := List.mem_map.mp hp
  refine ⟨toPdfLinkL_ends _, ?_⟩
  intro he
  have hdata : toPdfLinkL q.link.data = [] := by
    have := congrArg String.data he
    simpa [simplifyArxivPaper, toPdfLink] using this
  exact toPdfLinkL_ne_nil _ hdata

/-- C9 witness: the invariant evaluated on the one paper of a concrete
successful call. -/
theorem claim_C9_pdf_link_invariant_witness :
    endsWithL ("https://arxiv.org/pdf/2301.12345.pdf" : String).data ".pdf".data = true ∧
    ("https://arxiv.org/pdf/2301.12345.pdf" : String) ≠ "" :=
  claim_C9_pdf_link_invariant 30000 0 (FetchResult.ok [goodArxivEntry]) emptyCols _ rfl
    { title := "Sample Paper", abstract := "An abstract", published := "2023-01-15",
      pdfLink := "https://arxiv.org/pdf/2301.12345.pdf", arxivId := "2301.12345" }
    (by decide)

/-- C4: an arXiv search invoked strictly less than 30000ms after the last
recorded call raises the cooldown error without issuing the HTTP request;
invoked at or after 30000ms it issues the request and, when the upstream
call succeeds, returns successfully. -/
theorem claim_C4_arxiv_cooldown (now lastArxivCall : Int)
    (fetchRes : FetchResult (List ArxivEntryXml)) (cols : Collectors) :
    (now - lastArxivCall < 30000 →
      (searchArxiv now fetchRes lastArxivCall cols).httpIssued = false ∧
      (searchArxiv now fetchRes lastArxivCall cols).outcome =
        Except.error (arxivCooldownMessage (30000 - (now - lastArxivCall)))) ∧
    (30000 ≤ now - lastArxivCall →
      (searchArxiv now fetchRes lastArxivCall cols).httpIssued = true ∧
      ∀ blocks, fetchRes = FetchResult.ok blocks →
        (searchArxiv now fetchRes lastArxivCall cols).outcome =
          Except.ok ((parseArxivXML blocks).map simplifyArxivPaper)) := by
  constructor
  · intro hlt
    have hc : now - lastArxivCall < (30000 : Int) := hlt
    simp [searchArxiv, ARXIV_COOLDOWN_MS, hc]
  · intro hge
    have hc : ¬ now - lastArxivCall < (30000 : Int) := by omega
    constructor
    · cases fetchRes <;> simp [searchArxiv, ARXIV_COOLDOWN_MS, hc]
    · rintro blocks rfl
      simp [searchArxiv, ARXIV_COOLDOWN_MS, hc]

/-- C4 witness: a call at 100ms after a call recorded at 0 is rejected
without a request; a call at exactly 30000ms succeeds. -/
theorem claim_C4_arxiv_cooldown_witness :
    ((100 : Int) - 0 < 30000 ∧
      (searchArxiv 100 (FetchResult.ok [goodArxivEntry]) 0 emptyCols).httpIssued = false ∧
      (searchArxiv 100 (FetchResult.ok [goodArxivEntry]) 0 emptyCols).outcome =
        Except.error (arxivCooldownMessage (30000 - ((100 : Int) - 0)))) ∧
    ((30000 : Int) ≤ 30000 - 0 ∧
      (searchArxiv 30000 (FetchResult.ok [goodArxivEntry]) 0 emptyCols).httpIssued = true ∧
      (searchArxiv 30000 (FetchResult.ok [goodArxivEntry]) 0 emptyCols).outcome =
        Except.ok ((parseArxivXML [goodArxivEntry]).map simplifyArxivPaper)) := by
  refine ⟨⟨by norm_num, ?_⟩, ⟨by norm_num, ?_⟩⟩
  · exact (claim_C4_arxiv_cooldown 100 0 (FetchResult.ok [goodArxivEntry]) emptyCols).1
      (by norm_num)
  · have h := (claim_C4_arxiv_cooldown 30000 0 (FetchResult.ok [goodArxivEntry]) emptyCols).2
      (by norm_num)
    exact ⟨h.1, h.2 [goodArxivEntry] rfl⟩

/-- C5: a Semantic Scholar or J-STAGE search invoked within 1000ms of the
last recorded call to that source suspends for exactly the remaining
cooldown and then proceeds (the request is always issued, and an `ok`
upstream response always yields a successful result — the call is never
rejected for rate-limiting); outside the window no wait happens. -/
theorem claim_C5_blocking_wait (now nowAfter lastSS lastJ : Int)
    (fetchS : FetchResult SSData) (fetchJ : FetchResult JstageXml)
    (freshIds : Nat → String) (cols cols' : Collectors) :
    ((now - lastSS < 1000 →
       (searchSemanticScholar now nowAfter fetchS lastSS cols).waitedMillis =
         1000 - (now - lastSS)) ∧
     (1000 ≤ now - lastSS →
       (searchSemanticScholar now nowAfter fetchS lastSS cols).waitedMillis = 0) ∧
     (searchSemanticScholar now nowAfter fetchS lastSS cols).httpIssued = true ∧
     (∀ data, fetchS = FetchResult.ok data →
       (searchSemanticScholar now nowAfter fetchS lastSS cols).outcome =
         Except.ok ((data.data.getD []).map ssSimplify))) ∧
    ((now - lastJ < 1000 →
       (searchJstage now nowAfter freshIds fetchJ lastJ cols').waitedMillis =
         1000 - (now - lastJ)) ∧
     (1000 ≤ now - lastJ →
       (searchJstage now nowAfter freshIds fetchJ lastJ cols').waitedMillis = 0) ∧
     (searchJstage now nowAfter freshIds fetchJ lastJ cols').httpIssued = true ∧
     (∀ xml, fetchJ = FetchResult.ok xml →
       (searchJstage now nowAfter freshIds fetchJ lastJ cols').outcome =
         Except.ok { papers := (parseJstageXML xml).map simplifyJstagePaper
                     totalResults := extractTotalHits xml })) := by
  constructor
  · refine ⟨?_, ?_, ?_, ?_⟩
    · intro hlt
      have hc : now - lastSS < (1000 : Int) := hlt
      cases fetchS <;>
        simp [searchSemanticScholar, SEMANTIC_SCHOLAR_COOLDOWN_MS, hc]
    · intro hge
      have hc : ¬ now - lastSS < (1000 : Int) := by omega
      cases fetchS <;>
        simp [searchSemanticScholar, SEMANTIC_SCHOLAR_COOLDOWN_MS, hc]
    · cases fetchS <;> simp [searchSemanticScholar]
    · rintro data rfl
      simp [searchSemanticScholar]
  · refine ⟨?_, ?_, ?_, ?_⟩
    · intro hlt
      have hc : now - lastJ < (1000 : Int) := hlt
      cases fetchJ <;> simp [searchJstage, JSTAGE_COOLDOWN_MS, hc]
    · intro hge
      have hc : ¬ now - lastJ < (1000 : Int) := by omega
      cases fetchJ <;> simp [searchJstage, JSTAGE_COOLDOWN_MS, hc]
    · cases fetchJ <;> simp [searchJstage]
    · rintro xml rfl
      simp [searchJstage]

/-- A one-record Semantic Scholar response body. -/
def ssDataFixture : SSData := { data := some [ssRawNoTitle], total := some 1 }

/-- A one-item J-STAGE response body. -/
def jstageXmlFixture : JstageXml :=
  { entryBlocks := [], itemBlocks := [jstageItemGood], totalResults := some 1 }

/-- C5 witness: a Semantic Scholar call and a J-STAGE call, each 400ms
after the last recorded one, wait 600ms and then succeed. -/
theorem claim_C5_blocking_wait_witness :
    (((400 : Int) - 0 < 1000 →
       (searchSemanticScholar 400 1005 (FetchResult.ok ssDataFixture)
          0 emptyCols).waitedMillis = 1000 - ((400 : Int) - 0)) ∧
     ((1000 : Int) ≤ 400 - 0 →
       (searchSemanticScholar 400 1005 (FetchResult.ok ssDataFixture)
          0 emptyCols).waitedMillis = 0) ∧
     (searchSemanticScholar 400 1005 (FetchResult.ok ssDataFixture)
        0 emptyCols).httpIssued = true ∧
     (∀ data, FetchResult.ok ssDataFixture = FetchResult.ok data →
       (searchSemanticScholar 400 1005 (FetchResult.ok ssDataFixture)
          0 emptyCols).outcome = Except.ok ((data.data.getD []).map ssSimplify))) ∧
    (((400 : Int) - 0 < 1000 →
       (searchJstage 400 1005 (fun _ => "jstage-fresh")
          (FetchResult.ok jstageXmlFixture)
          0 emptyCols).waitedMillis = 1000 - ((400 : Int) - 0)) ∧
     ((1000 : Int) ≤ 400 - 0 →
       (searchJstage 400 1005 (fun _ => "jstage-fresh")
          (FetchResult.ok jstageXmlFixture)
          0 emptyCols).waitedMillis = 0) ∧
     (searchJstage 400 1005 (fun _ => "jstage-fresh")
        (FetchResult.ok jstageXmlFixture)
        0 emptyCols).httpIssued = true ∧
     (∀ xml, FetchResult.ok jstageXmlFixture = FetchResult.ok xml →
       (searchJstage 400 1005 (fun _ => "jstage-fresh")
          (FetchResult.ok jstageXmlFixture)
          0 emptyCols).outcome =
         Except.ok { papers := (parseJstageXML xml).map simplifyJstagePaper
                     totalResults := extractTotalHits xml })) :=
  claim_C5_blocking_wait 400 1005 0 0
    (FetchResult.ok ssDataFixture)
    (FetchResult.ok jstageXmlFixture)
    (fun _ => "jstage-fresh") emptyCols emptyCols

/-- C7: each rate-gated source's last-call timestamp is updated exactly on
a successful call — a rate-limited rejection (arXiv) or an upstream
failure (non-2xx response or network error) leaves it unchanged. -/
theorem claim_C7_rate_state_mutation (now nowAfter lastA lastSS lastJ : Int)
    (freshIds : Nat → String) (cols : Collectors) :
    (∀ blocks, ¬ now - lastA < 30000 →
      (searchArxiv now (FetchResult.ok blocks) lastA cols).lastArxivCall = now) ∧
    (∀ fetchRes : FetchResult (List ArxivEntryXml), now - lastA < 30000 →
      (searchArxiv now fetchRes lastA cols).lastArxivCall = lastA) ∧
    (∀ status statusText,
      (searchArxiv now (FetchResult.httpError status statusText) lastA cols).lastArxivCall = lastA) ∧
    (∀ msg, (searchArxiv now (FetchResult.netError msg) lastA cols).lastArxivCall = lastA) ∧
    (∀ data, (searchSemanticScholar now nowAfter (FetchResult.ok data) lastSS
        cols).lastSemanticScholarCall = nowAfter) ∧
    (∀ status statusText, (searchSemanticScholar now nowAfter
        (FetchResult.httpError status statusText) lastSS cols).lastSemanticScholarCall = lastSS) ∧
    (∀ msg, (searchSemanticScholar now nowAfter (FetchResult.netError msg) lastSS
        cols).lastSemanticScholarCall = lastSS) ∧
    (∀ xml, (searchJstage now nowAfter freshIds (FetchResult.ok xml) lastJ
        cols).lastJstageCall = nowAfter) ∧
    (∀ status statusText, (searchJstage now nowAfter freshIds
        (FetchResult.httpError status statusText) lastJ cols).lastJstageCall = lastJ) ∧
    (∀ msg, (searchJstage now nowAfter freshIds (FetchResult.netError msg) lastJ
        cols).lastJstageCall = lastJ) := by
  refine ⟨?_, ?_, ?_, ?_, ?_, ?_, ?_, ?_, ?_, ?_⟩
  · intro blocks hc
    simp [searchArxiv, ARXIV_COOLDOWN_MS, hc]
  · intro fetchRes hc
    cases fetchRes <;> simp [searchArxiv, ARXIV_COOLDOWN_MS, hc]
  · intro status statusText
    by_cases hc : now - lastA < (30000 : Int) <;>
      simp [searchArxiv, ARXIV_COOLDOWN_MS, hc]
  · intro msg
    by_cases hc : now - lastA < (30000 : Int) <;>
      simp [searchArxiv, ARXIV_COOLDOWN_MS, hc]
  · intro data; simp [searchSemanticScholar]
  · intro status statusText; simp [searchSemanticScholar]
  · intro msg; simp [searchSemanticScholar]
  · intro xml; simp [searchJstage]
  · intro status statusText; simp [searchJstage]
  · intro msg; simp [searchJstage]

/-- C7 witness: the timestamp facts evaluated at concrete calls — a
successful arXiv call at 30000 records 30000; a rejected call at 100
keeps 0; failed calls keep the old timestamps; successful Semantic
Scholar and J-STAGE calls record the post-response reading 1005. -/
theorem claim_C7_rate_state_mutation_witness :
    (searchArxiv 30000 (FetchResult.ok [goodArxivEntry]) 0 emptyCols).lastArxivCall = 30000 ∧
    (searchArxiv 100 (FetchResult.ok [goodArxivEntry]) 0 emptyCols).lastArxivCall = 0 ∧
    (searchArxiv 30000 (FetchResult.httpError 500 "Server Error") 0 emptyCols).lastArxivCall = 0 ∧
    (searchSemanticScholar 400 1005 (FetchResult.ok ssDataFixture) 0
      emptyCols).lastSemanticScholarCall = 1005 ∧
    (searchSemanticScholar 400 1005 (FetchResult.netError "boom") 0
      emptyCols).lastSemanticScholarCall = 0 ∧
    (searchJstage 400 1005 (fun _ => "jstage-fresh") (FetchResult.ok jstageXmlFixture) 0
      emptyCols).lastJstageCall = 1005 ∧
    (searchJstage 400 1005 (fun _ => "jstage-fresh") (FetchResult.httpError 404 "Not Found") 0
      emptyCols).lastJstageCall = 0 := by
  have h := claim_C7_rate_state_mutation 30000 1005 0 0 0 (fun _ => "jstage-fresh") emptyCols
  have h2 := claim_C7_rate_state_mutation 100 1005 0 0 0 (fun _ => "jstage-fresh") emptyCols
  have h3 := claim_C7_rate_state_mutation 400 1005 0 0 0 (fun _ => "jstage-fresh") emptyCols
  refine ⟨h.1 [goodArxivEntry] (by norm_num), ?_, ?_, ?_, ?_, ?_, ?_⟩
  · exact h2.2.1 (FetchResult.ok [goodArxivEntry]) (by norm_num)
  · exact h.2.2.1 500 "Server Error"
  · exact h3.2.2.2.2.1 ssDataFixture
  · exact h3.2.2.2.2.2.2.1 "boom"
  · exact h3.2.2.2.2.2.2.2.1 jstageXmlFixture
  · exact h3.2.2.2.2.2.2.2.2.1 404 "Not Found"

/-- C3: on an unhandled internal error (non-2xx response or network
failure, plus the cooldown rejection for arXiv) the arXiv, Semantic
Scholar and J-STAGE searches throw (an `Except.error` propagating to the
orchestrator), while the CORE tool returns the degraded success value
with no papers and total 0, and the conference tool returns a
`success := true` value with an empty papers list. -/
theorem claim_C3_error_policy (now nowAfter lastA lastSS lastJ currentYear searchId : Int)
    (status : Nat) (statusText msg query : String) (freshIds : Nat → String)
    (cols : Collectors) :
    (∃ e, (searchArxiv now (FetchResult.httpError status statusText) lastA cols).outcome =
      Except.error e) ∧
    (∃ e, (searchArxiv now (FetchResult.netError msg) lastA cols).outcome = Except.error e) ∧
    (∃ e, (searchSemanticScholar now nowAfter (FetchResult.httpError status statusText)
      lastSS cols).outcome = Except.error e) ∧
    (∃ e, (searchSemanticScholar now nowAfter (FetchResult.netError msg) lastSS
      cols).outcome = Except.error e) ∧
    (∃ e, (searchJstage now nowAfter freshIds (FetchResult.httpError status statusText)
      lastJ cols).outcome = Except.error e) ∧
    (∃ e, (searchJstage now nowAfter freshIds (FetchResult.netError msg) lastJ
      cols).outcome = Except.error e) ∧
    (coreSearchExecute currentYear (FetchResult.httpError status statusText) cols).response =
      { papers := [], totalResults := 0 } ∧
    (coreSearchExecute currentYear (FetchResult.netError msg) cols).response =
      { papers := [], totalResults := 0 } ∧
    (googleGroundingSearchExecute query searchId (GenResult.err msg)).success = true ∧
    (googleGroundingSearchExecute query searchId (GenResult.err msg)).papers = [] := by
  refine ⟨?_, ?_, ⟨_, rfl⟩, ⟨_, rfl⟩, ⟨_, rfl⟩, ⟨_, rfl⟩, rfl, rfl, rfl, rfl⟩
  · by_cases hc : now - lastA < (30000 : Int)
    · exact ⟨arxivCooldownMessage (30000 - (now - lastA)),
        by simp [searchArxiv, ARXIV_COOLDOWN_MS, hc]⟩
    · exact ⟨"Failed to search arXiv: arXiv API request failed: " ++
          toString status ++ " " ++ statusText,
        by simp [searchArxiv, ARXIV_COOLDOWN_MS, hc]⟩
  · by_cases hc : now - lastA < (30000 : Int)
    · exact ⟨arxivCooldownMessage (30000 - (now - lastA)),
        by simp [searchArxiv, ARXIV_COOLDOWN_MS, hc]⟩
    · exact ⟨"Failed to search arXiv: " ++ msg,
        by simp [searchArxiv, ARXIV_COOLDOWN_MS, hc]⟩

/-- C10: when the generative-search call inside the conference-fallback
tool fails, `searchTopConferences` catches the error and resolves with an
apology string as content and empty papers and citations, so the tool's
`execute` still returns `success := true` with no `error` field — the
`success := false` branch of `execute` is not taken for such failures. -/
theorem claim_C10_conference_error_swallowed (query msg : String) (searchId : Int) :
    searchTopConferences (GenResult.err msg) =
      { content := "申し訳ありません。トップカンファレンス検索中にエラーが発生しました: " ++ msg
        citations := []
        papers := [] } ∧
    googleGroundingSearchExecute query searchId (GenResult.err msg) =
      { searchId := searchId, query := query
        content := "申し訳ありません。トップカンファレンス検索中にエラーが発生しました: " ++ msg
        citations := [], papers := [], success := true, error := none } :=
  ⟨rfl, rfl⟩

/-- A J-STAGE response containing one well-formed item and one item with a
missing title. -/
def jstageXmlMixed : JstageXml :=
  { entryBlocks := [], itemBlocks := [jstageItemGood, jstageItemNoTitle]
    totalResults := some 2 }

/-- A one-record CORE response body. -/
def coreDataFixture : CoreData := { results := some [coreRawGood], totalHits := some 1 }

/-- C1 counterexample: a J-STAGE item with no title is not excluded — it
is returned with the substitute title `'No Title'` alongside the
well-formed item — and a Semantic Scholar record with no title is
returned with an empty-string title, so records missing their identifying
field are not dropped by every source. -/
theorem claim_C1_missing_field_counterexample :
    (parseJstageXML jstageXmlMixed).length = 2 ∧
    (parseJstageXML jstageXmlMixed).map JstagePaper.title = ["Good Paper", "No Title"] ∧
    (searchSemanticScholar 1000 2000 (FetchResult.ok ssDataFixture) 0 emptyCols).outcome =
      Except.ok [{ title := "", abstract := "Some abstract", year := some 2020,
                   citationCount := 5 }] :=
  ⟨rfl, rfl, rfl⟩

/-- C1 amended: only the arXiv parser drops a record whose extracted id or
title is missing, still returning the surrounding well-formed records;
a record with both fields present is always kept; the J-STAGE parser
keeps every block (substituting `'No Title'` for a missing title), and
Semantic Scholar and CORE return one normalized record per upstream
record. -/
theorem claim_C1_missing_field_amended (xs ys : List ArxivEntryXml)
    (bad : ArxivEntryXml) (hbad : bad.idText = "" ∨ bad.titleText = "")
    (x : JstageXml) (now nowAfter lastSS currentYear : Int)
    (raws : List SSRawPaper) (total : Option Int) (cols : Collectors)
    (coreRaws : List CoreRawPaper) (th : Option Int) :
    parseArxivXML (xs ++ bad :: ys) = parseArxivXML xs ++ parseArxivXML ys ∧
    (∀ e : ArxivEntryXml, e.idText ≠ "" → e.titleText ≠ "" → (parseEntry e).isSome = true) ∧
    (parseJstageXML x).length = (jstageBlocks x).length ∧
    (∀ j ∈ jstageBlocks x, j.title = "" → ∃ p ∈ parseJstageXML x, p.title = "No Title") ∧
    (searchSemanticScholar now nowAfter
        (FetchResult.ok { data := some raws, total := total }) lastSS cols).outcome =
      Except.ok (raws.map ssSimplify) ∧
    (coreSearchExecute currentYear
        (FetchResult.ok { results := some coreRaws, totalHits := th })
        cols).response.papers.length = coreRaws.length := by
  refine ⟨?_, ?_, ?_, ?_, rfl, ?_⟩
  · have hnone : parseEntry bad = none := by
      rcases hbad with h | h <;> simp [parseEntry, h]
    simp [parseArxivXML, List.filterMap_append, hnone]
  · intro e h1 h2
    simp [parseEntry, h1, h2]
  · simp [parseJstageXML]
  · intro j hj htitle
    refine ⟨parseJstageItem j, ?_, ?_⟩
    · exact List.mem_map_of_mem parseJstageItem hj
    · simp [parseJstageItem, jsOr, htitle]
  · simp [coreSearchExecute]

/-- C1 amended witness: the amended statement on concrete inputs (an entry
with a missing title between none and one well-formed entry, the mixed
J-STAGE payload, the one-record Semantic Scholar and CORE payloads). -/
theorem claim_C1_missing_field_amended_witness :
    parseArxivXML ([goodArxivEntry] ++ badArxivEntry :: []) =
      parseArxivXML [goodArxivEntry] ++ parseArxivXML [] ∧
    (∀ e : ArxivEntryXml, e.idText ≠ "" → e.titleText ≠ "" → (parseEntry e).isSome = true) ∧
    (parseJstageXML jstageXmlMixed).length = (jstageBlocks jstageXmlMixed).length ∧
    (∀ j ∈ jstageBlocks jstageXmlMixed, j.title = "" →
      ∃ p ∈ parseJstageXML jstageXmlMixed, p.title = "No Title") ∧
    (searchSemanticScholar 1000 2000
        (FetchResult.ok { data := some [ssRawNoTitle], total := some 1 }) 0 emptyCols).outcome =
      Except.ok ([ssRawNoTitle].map ssSimplify) ∧
    (coreSearchExecute 2024
        (FetchResult.ok { results := some [coreRawGood], totalHits := some 1 })
        emptyCols).response.papers.length = [coreRawGood].length :=
  claim_C1_missing_field_amended [goodArxivEntry] [] badArxivEntry (Or.inr rfl)
    jstageXmlMixed 1000 2000 0 2024 [ssRawNoTitle] (some 1) emptyCols [coreRawGood] (some 1)

/-- C2 counterexample: one successful CORE call that normalizes one
well-formed paper appends nothing to any collector — the collectors stay
empty instead of holding exactly one entry. -/
theorem claim_C2_collector_counterexample :
    (coreSearchExecute 2024 (FetchResult.ok coreDataFixture) emptyCols).response.papers.length = 1 ∧
    (coreSearchExecute 2024 (FetchResult.ok coreDataFixture) emptyCols).cols = emptyCols ∧
    (coreSearchExecute 2024 (FetchResult.ok coreDataFixture) emptyCols).cols.arxivUrls.length +
      (coreSearchExecute 2024 (FetchResult.ok coreDataFixture) emptyCols).cols.ssUrls.length +
      (coreSearchExecute 2024 (FetchResult.ok coreDataFixture) emptyCols).cols.jstageUrls.length ≠ 1 :=
  ⟨rfl, rfl, by decide⟩

/-- C2 amended: the arXiv, Semantic Scholar and J-STAGE searches append
exactly one entry per normalized paper to their own module's collector,
in payload order, so a successful call grows that collector by the number
of papers it returns and leaves the other collectors unchanged; the CORE
tool (like the conference fallback) declares no collector, so calls
through it add no entries. -/
theorem claim_C2_collector_amended (now nowAfter lastA lastSS lastJ currentYear : Int)
    (freshIds : Nat → String) (blocks : List ArxivEntryXml) (data : SSData)
    (xml : JstageXml) (fetchCore : FetchResult CoreData) (cols : Collectors)
    (hc : ¬ now - lastA < 30000) :
    (searchArxiv now (FetchResult.ok blocks) lastA cols).cols.arxivUrls =
      cols.arxivUrls ++ (parseArxivXML blocks).map arxivUrlEntry ∧
    (searchArxiv now (FetchResult.ok blocks) lastA cols).cols.ssUrls = cols.ssUrls ∧
    (searchArxiv now (FetchResult.ok blocks) lastA cols).cols.jstageUrls = cols.jstageUrls ∧
    (∀ papers, (searchArxiv now (FetchResult.ok blocks) lastA cols).outcome = Except.ok papers →
      (searchArxiv now (FetchResult.ok blocks) lastA cols).cols.arxivUrls.length =
        cols.arxivUrls.length + papers.length) ∧
    (searchSemanticScholar now nowAfter (FetchResult.ok data) lastSS cols).cols.ssUrls =
      cols.ssUrls ++ (data.data.getD []).map ssUrlEntry ∧
    (searchSemanticScholar now nowAfter (FetchResult.ok data) lastSS cols).cols.arxivUrls =
      cols.arxivUrls ∧
    (∀ papers, (searchSemanticScholar now nowAfter (FetchResult.ok data) lastSS
        cols).outcome = Except.ok papers →
      (searchSemanticScholar now nowAfter (FetchResult.ok data) lastSS cols).cols.ssUrls.length =
        cols.ssUrls.length + papers.length) ∧
    (searchJstage now nowAfter freshIds (FetchResult.ok xml) lastJ cols).cols.jstageUrls =
      cols.jstageUrls ++
        (parseJstageXML xml).enum.map (fun ip => jstageUrlEntry (freshIds ip.1) ip.2) ∧
    (∀ resp, (searchJstage now nowAfter freshIds (FetchResult.ok xml) lastJ cols).outcome =
        Except.ok resp →
      (searchJstage now nowAfter freshIds (FetchResult.ok xml) lastJ cols).cols.jstageUrls.length =
        cols.jstageUrls.length + resp.papers.length) ∧
    (coreSearchExecute currentYear fetchCore cols).cols = cols := by
  refine ⟨?_, ?_, ?_, ?_, ?_, ?_, ?_, ?_, ?_, ?_⟩
  · simp [searchArxiv, ARXIV_COOLDOWN_MS, hc]
  · simp [searchArxiv, ARXIV_COOLDOWN_MS, hc]
  · simp [searchArxiv, ARXIV_COOLDOWN_MS, hc]
  · intro papers hp
    simp [searchArxiv, ARXIV_COOLDOWN_MS, hc] at hp ⊢
    simp [← hp]
  · simp [searchSemanticScholar]
  · simp [searchSemanticScholar]
  · intro papers hp
    simp [searchSemanticScholar] at hp ⊢
    simp [← hp]
  · simp [searchJstage]
  · intro resp hp
    simp [searchJstage] at hp ⊢
    simp [← hp]
  · cases fetchCore <;> simp [coreSearchExecute]

/-- C2 amended witness: the collector growth evaluated on concrete
successful calls of each source and on a CORE call. -/
theorem claim_C2_collector_amended_witness :
    (searchArxiv 30000 (FetchResult.ok [goodArxivEntry]) 0 emptyCols).cols.arxivUrls =
      emptyCols.arxivUrls ++ (parseArxivXML [goodArxivEntry]).map arxivUrlEntry ∧
    (searchSemanticScholar 30000 1005 (FetchResult.ok ssDataFixture) 0 emptyCols).cols.ssUrls =
      emptyCols.ssUrls ++ (ssDataFixture.data.getD []).map ssUrlEntry ∧
    (searchJstage 30000 1005 (fun _ => "jstage-fresh") (FetchResult.ok jstageXmlFixture) 0
        emptyCols).cols.jstageUrls =
      emptyCols.jstageUrls ++ (parseJstageXML jstageXmlFixture).enum.map
        (fun ip => jstageUrlEntry ((fun _ => "jstage-fresh") ip.1) ip.2) ∧
    (coreSearchExecute 2024 (FetchResult.ok coreDataFixture) emptyCols).cols = emptyCols := by
  have h := claim_C2_collector_amended 30000 1005 0 0 0 2024 (fun _ => "jstage-fresh")
    [goodArxivEntry] ssDataFixture jstageXmlFixture (FetchResult.ok coreDataFixture)
    emptyCols (by norm_num)
  exact ⟨h.1, h.2.2.2.2.1, h.2.2.2.2.2.2.2.1, h.2.2.2.2.2.2.2.2.2⟩

/-- C6 counterexample: with `maxResults = 80` — already within the
Semantic Scholar input schema's declared bound of 100 — the tool sends
`limit=50` upstream, not the schema-clamped value 80. -/
theorem claim_C6_clamp_counterexample :
    (ssParams "q" 80).lookup "limit" = some "50" ∧
    toString (min (80 : Int) 100) = "80" ∧
    (some "50" : Option String) ≠ some "80" :=
  ⟨rfl, by decide, by decide⟩

/-- C6 amended: only J-STAGE clamps `maxResults` to its declared schema
bound (`count = min maxResults 100`); Semantic Scholar clamps to the
stricter 50 (`limit = min maxResults 50`, below its declared bound of
100); arXiv and CORE send the value unmodified. -/
theorem claim_C6_clamp_amended (query sortBy documentType : String) (m : Int)
    (material pubyearfrom pubyearto : Option String) (yearFrom yearTo : Option Int)
    (languageFilter : Option (List String)) :
    (jstageParams query m material pubyearfrom pubyearto).lookup "count" =
      some (toString (min m 100)) ∧
    (ssParams query m).lookup "limit" = some (toString (min m 50)) ∧
    (arxivParams query m sortBy).lookup "max_results" = some (toString m) ∧
    (coreParams query m yearFrom yearTo languageFilter documentType).lookup "limit" =
      some (toString m) :=
  ⟨rfl, rfl, rfl, rfl⟩
